import Mathlib

/-!
Shallow embedding of the route-state and map-annotation logic of
`src/components/RouteMatrix.tsx` (azure-maps-optimized-route-demo).

Conventions of the embedding:
* TypeScript numbers that only ever flow through the state (coordinates) are
  modelled as `Int`; numbers that are divided (meters, seconds) as `Rat`.
  No claim depends on float rounding, so this is faithful for the claims.
* React `useState` fields become fields of `RouteState`; the two map data
  sources (`dataSourceRef`, `routeDataSourceRef`) become the two lists of
  `MapState`.  The sources are modelled as present (the component only
  manipulates them after map initialisation; the `if (ref.current)` guards
  are the non-null cases).
* The single `fetch` is modelled by passing the network outcome
  (`FetchOutcome`) as an argument to `calculateOptimizedRoute`; the returned
  `Option String` is the request URL actually issued (`none` = no network
  call was made).
* JS `||` on possibly-absent strings (empty string is falsy) is `jsOr`.
* `heading = Math.atan2(dx, dy) * 180 / Math.PI` is transcendental float
  arithmetic; the arrow feature stores the operands `dx`, `dy` instead.
  No claim mentions the heading value, only the arrow features' count and
  positions.
-/

namespace RouteDemo

/-- `Location` from `src/types/routeMatrix.ts`: `{ lat, lon }`. -/
structure Location where
  lat : Int
  lon : Int
deriving DecidableEq, Repr

/-- The `'car' | 'truck'` union of the `vehicleType` state. -/
inductive VehicleType where
  | car
  | truck
deriving DecidableEq, Repr

/-- `RouteLeg` interface (RouteMatrix.tsx lines 12-17). -/
structure RouteLeg where
  distance : Rat
  duration : Rat
  startPoint : String
  endPoint : String
deriving DecidableEq, Repr

/-- `RouteResult` interface (RouteMatrix.tsx lines 19-24).  `legs` is always
assigned (possibly `[]`) by the interpreter, so it is a plain list here. -/
structure RouteResult where
  distance : Rat
  duration : Rat
  waypointOrder : Option (List Nat)
  legs : List RouteLeg
deriving DecidableEq, Repr

/-- The `useState` fields of the `RouteMatrix` component (lines 27-33),
minus the manual-key input which no claim touches. -/
structure RouteState where
  origin : Option Location
  waypoints : List Location
  result : Option RouteResult
  loading : Bool
  error : Option String
  showTraffic : Bool
  vehicleType : VehicleType
deriving DecidableEq, Repr

/-- Initial state: the `useState` defaults of lines 27-33. -/
def initialState : RouteState :=
  { origin := none, waypoints := [], result := none, loading := false,
    error := none, showTraffic := false, vehicleType := .car }

/-- Marker features carry a `type` property of `'origin'` or `'waypoint'`. -/
inductive MarkerType where
  | origin
  | waypoint
deriving DecidableEq, Repr

/-- A point feature pushed to the marker data source (lines 140-160):
a `type` tag, a `label`, and the `[lon, lat]` position. -/
structure MarkerFeature where
  type : MarkerType
  label : String
  lon : Int
  lat : Int
deriving DecidableEq, Repr

/-- A feature of the route-geometry data source: either the route line
(line 281-286) or a directional arrow point (lines 301-309).  The arrow
stores its position and the `dx`/`dy` operands of the heading. -/
inductive RouteFeature where
  | line (coords : List (Int × Int))
  | arrow (pos : Int × Int) (dx : Int) (dy : Int)
deriving DecidableEq, Repr

/-- The two map data sources: `dataSourceRef` (markers) and
`routeDataSourceRef` (route line and arrows). -/
structure MapState where
  markerSource : List MarkerFeature
  routeSource : List RouteFeature
deriving DecidableEq, Repr

/-- Empty overlay state (both data sources freshly created, lines 53-60). -/
def initialMapState : MapState := { markerSource := [], routeSource := [] }

/-- `map.getCamera()`: only the `center` field is read, and it can be
absent (the code guards `if (center)`).  The position is `[lon, lat]`. -/
structure Camera where
  center : Option (Int × Int)
deriving DecidableEq, Repr

/-- `data.error` object of the response payload: `{ message?: string }`. -/
structure ApiErrorObj where
  message : Option String
deriving DecidableEq, Repr

/-- The parsed body of a non-ok response: `errorData.error?.message` and
`errorData.message` are both reached into (line 232). -/
structure ErrData where
  error : Option ApiErrorObj
  message : Option String
deriving DecidableEq, Repr

/-- `leg.points` entries: `{ latitude, longitude }` (lines 271-275). -/
structure ApiPoint where
  latitude : Int
  longitude : Int
deriving DecidableEq, Repr

/-- `leg.summary` / `route.summary`: `{ lengthInMeters, travelTimeInSeconds }`. -/
structure ApiSummary where
  lengthInMeters : Rat
  travelTimeInSeconds : Rat
deriving DecidableEq, Repr

/-- One element of `route.legs`: a summary and an optional point list. -/
structure ApiLeg where
  summary : ApiSummary
  points : Option (List ApiPoint)
deriving DecidableEq, Repr

/-- One element of `data.routes`. -/
structure ApiRoute where
  summary : ApiSummary
  legs : Option (List ApiLeg)
deriving DecidableEq, Repr

/-- One element of `data.optimizedWaypoints`: `{ optimizedIndex }`. -/
structure OptimizedWaypoint where
  optimizedIndex : Nat
deriving DecidableEq, Repr

/-- The JSON document of a successful (`response.ok`) directions response,
with exactly the optional fields the component reaches into. -/
structure ApiResponse where
  error : Option ApiErrorObj
  routes : Option (List ApiRoute)
  optimizedWaypoints : Option (List OptimizedWaypoint)
deriving DecidableEq, Repr

/-- Outcome of the single `await fetch(url)` (plus `response.json()`):
`fetchError` = the promise rejected with an `Error` carrying `msg`
(connectivity failure, invalid success-body JSON);
`httpError` = `!response.ok`, with the error body if it parsed
(`json().catch(() => ({}))` maps a parse failure to `none` here);
`success` = an ok response whose body parsed to `data`. -/
inductive FetchOutcome where
  | fetchError (msg : String)
  | httpError (status : Nat) (errData : Option ErrData)
  | success (data : ApiResponse)
deriving DecidableEq, Repr

/-- JavaScript `a || b` for a possibly-absent string `a`: the empty string
is falsy, so it also falls through to `b`. -/
def jsOr (a : Option String) (b : String) : String :=
  match a with
  | some s => if s = "" then b else s
  | none => b

/-- The template fragment `${loc.lat},${loc.lon}` (line 215). -/
def renderLoc (loc : Location) : String :=
  toString loc.lat ++ "," ++ toString loc.lon

/-- `Array.prototype.join(':')` (line 215). -/
def joinColon : List String → String
  | [] => ""
  | [s] => s
  | s :: rest => s ++ ":" ++ joinColon rest

/-- The value interpolated for `travelMode` (line 218). -/
def vehicleTypeParam : VehicleType → String
  | .car => "car"
  | .truck => "truck"

/-- The fixed truck dimension parameters (line 223). -/
def truckParams : String :=
  "&vehicleWidth=2.5&vehicleHeight=4&vehicleLength=12&vehicleWeight=10000"

/-- `vehicleParams` (lines 221-224): the truck string when truck, else `''`. -/
def vehicleParams : VehicleType → String
  | .truck => truckParams
  | .car => ""

/-- The request URL of line 226 (template literal, left to right). -/
def buildUrl (key : String) (origin : Location) (waypoints : List Location)
    (showTraffic : Bool) (vehicleType : VehicleType) : String :=
  "https://atlas.microsoft.com/route/directions/json?api-version=1.0&subscription-key="
    ++ key ++ "&query=" ++ joinColon ((origin :: waypoints).map renderLoc)
    ++ "&computeBestOrder=true"
    ++ (if showTraffic then "&traffic=true" else "")
    ++ ("&travelMode=" ++ vehicleTypeParam vehicleType)
    ++ vehicleParams vehicleType

/-- The waypoint half of the marker `useEffect` (lines 153-160):
`waypoints.forEach((loc, index) => push({type:'waypoint', label:index+1}))`. -/
def waypointMarkers : Nat → List Location → List MarkerFeature
  | _, [] => []
  | index, loc :: rest =>
    { type := .waypoint, label := toString (index + 1), lon := loc.lon, lat := loc.lat }
      :: waypointMarkers (index + 1) rest

/-- The features built by the marker `useEffect` (lines 137-164): an origin
feature labeled `"Start"` when present, then one waypoint feature per
waypoint labeled with its 1-based insertion index.  Note the effect depends
only on `origin` and `waypoints` (its dependency array), never on `result`. -/
def markerFeatures (origin : Option Location) (waypoints : List Location) :
    List MarkerFeature :=
  (match origin with
   | some o => [{ type := .origin, label := "Start", lon := o.lon, lat := o.lat }]
   | none => []) ++ waypointMarkers 0 waypoints

/-- The marker `useEffect` body: `dataSource.clear(); dataSource.add(features)`. -/
def syncMarkers (s : RouteState) (ms : MapState) : MapState :=
  { ms with markerSource := markerFeatures s.origin s.waypoints }

/-- `addOrigin` (lines 183-189): no-op without a map or a camera center;
`center[1]` is the latitude, `center[0]` the longitude. -/
def addOrigin (map : Option Camera) (s : RouteState) : RouteState :=
  match map with
  | none => s
  | some cam =>
    match cam.center with
    | none => s
    | some c => { s with origin := some { lat := c.2, lon := c.1 } }

/-- `addWaypoint` (lines 191-197): appends the camera center. -/
def addWaypoint (map : Option Camera) (s : RouteState) : RouteState :=
  match map with
  | none => s
  | some cam =>
    match cam.center with
    | none => s
    | some c => { s with waypoints := s.waypoints ++ [{ lat := c.2, lon := c.1 }] }

/-- `clearOrigin` (lines 199-201). -/
def clearOrigin (s : RouteState) : RouteState :=
  { s with origin := none }

/-- `clearAll` (lines 321-332): resets the four state fields and clears both
data sources; `loading`, `showTraffic` and `vehicleType` are not touched. -/
def clearAll (s : RouteState) (ms : MapState) : RouteState × MapState :=
  ({ s with origin := none, waypoints := [], result := none, error := none },
   { markerSource := [], routeSource := [] })

/-- The inline message of line 205, standing for `InvalidStateError`. -/
def invalidStateMsg : String := "Please add a start point and at least one waypoint"

/-- The message of line 243, standing for `NoRouteFoundError`. -/
def noRouteMsg : String :=
  "No route found. Points may be too far apart or not connected by roads."

/-- The fallback message of line 239. -/
def routeCalcFailedMsg : String := "Route calculation failed"

/-- Message selection for `!response.ok` (lines 231-232):
`errorData.error?.message || errorData.message || 'HTTP error! status: S'`,
with a body that failed to parse behaving as `{}`. -/
def httpErrorMessage (status : Nat) (errData : Option ErrData) : String :=
  let d := errData.getD { error := none, message := none }
  jsOr (d.error.bind (fun e => e.message))
    (jsOr d.message s!"HTTP error! status: {status}")

/-- `route.legs?.map((leg, index) => ...)` (lines 251-256): `total` is
`route.legs.length`, `index` the running map index. -/
def buildLegs (total : Nat) : Nat → List ApiLeg → List RouteLeg
  | _, [] => []
  | index, leg :: rest =>
    { distance := leg.summary.lengthInMeters / 1000,
      duration := leg.summary.travelTimeInSeconds / 60,
      startPoint := if index = 0 then "Start" else s!"Waypoint {index}",
      endPoint := if index = total - 1 then s!"Waypoint {total}"
                  else s!"Waypoint {index + 1}" }
      :: buildLegs total (index + 1) rest

/-- `allCoordinates` (lines 269-277): every leg's points, flattened in leg
order, each as `[longitude, latitude]`. -/
def legCoordinates (legs : List ApiLeg) : List (Int × Int) :=
  (legs.map (fun leg =>
    match leg.points with
    | none => []
    | some ps => ps.map (fun p => (p.longitude, p.latitude)))).flatten

/-- The arrow loop of lines 293-310:
`for (let i = step; i < allCoordinates.length - step; i += step)`.
`Math.max(0, i - 1)` is truncated `Nat` subtraction.  The `0 < step`
conjunct records that the loop variable strictly advances (every call site
uses `step ≥ 5`); with `step = 0` the JS loop would not terminate either. -/
def arrowLoop (coords : List (Int × Int)) (step : Nat) (i : Nat) : List RouteFeature :=
  if h : 0 < step ∧ i < coords.length - step then
    let prev := coords.getD (i - 1) (0, 0)
    let next := coords.getD (min (coords.length - 1) (i + 1)) (0, 0)
    RouteFeature.arrow (coords.getD i (0, 0)) (next.1 - prev.1) (next.2 - prev.2)
      :: arrowLoop coords step (i + step)
  else []
termination_by coords.length - i
decreasing_by omega

/-- Arrow generation (lines 288-311): `maxArrows = 25`,
`step = Math.max(5, Math.floor(length / (maxArrows + 1)))`, loop from `step`. -/
def routeArrows (coords : List (Int × Int)) : List RouteFeature :=
  let maxArrows := 25
  let step := max 5 (coords.length / (maxArrows + 1))
  arrowLoop coords step step

/-- The `try` body from `fetch` onward (lines 228-313), as a function of the
network outcome.  A `.error` value is a thrown exception carrying the
`Error` message together with the state at the throw point; `.ok` is normal
completion.  All throws (lines 233, 239, 243) precede `setResult` and the
drawing code, which the threaded state makes explicit. -/
def tryFetchBody (s : RouteState) (ms : MapState) (out : FetchOutcome) :
    Except (String × RouteState × MapState) (RouteState × MapState) :=
  match out with
  | .fetchError msg => .error (msg, s, ms)
  | .httpError status errData => .error (httpErrorMessage status errData, s, ms)
  | .success data =>
    -- line 238: `if (data.error)` — an object is truthy even without a message
    match data.error with
    | some e => .error (jsOr e.message routeCalcFailedMsg, s, ms)
    | none =>
      -- line 242: `if (!data.routes || data.routes.length === 0)`
      match data.routes with
      | none => .error (noRouteMsg, s, ms)
      | some [] => .error (noRouteMsg, s, ms)
      | some (route :: _) =>
        -- lines 246-263: `data.routes[0]`, summary conversion, setResult
        let legs : List RouteLeg :=
          match route.legs with
          | none => []
          | some ls => buildLegs ls.length 0 ls
        let s2 := { s with result := some {
          distance := route.summary.lengthInMeters / 1000,
          duration := route.summary.travelTimeInSeconds / 60,
          waypointOrder := data.optimizedWaypoints.map
            (fun l => l.map (fun wp => wp.optimizedIndex)),
          legs := legs } }
        -- lines 265-312: `if (routeDataSourceRef.current && route.legs)`
        let ms2 :=
          match route.legs with
          | none => ms
          | some ls =>
            let allCoordinates := legCoordinates ls
            -- line 267: clear; line 279: `if (allCoordinates.length > 0)` add
            if allCoordinates.isEmpty then { ms with routeSource := [] }
            else { ms with routeSource :=
              RouteFeature.line allCoordinates :: routeArrows allCoordinates }
        .ok (s2, ms2)

/-- The synchronous prelude of `calculateOptimizedRoute` (lines 203-210):
the guard plus `setLoading(true); setError(null)`.  Returns the origin
snapshot when the computation proceeds. -/
def calcStart (s : RouteState) : RouteState × Option Location :=
  match s.origin with
  | none => ({ s with error := some invalidStateMsg }, none)
  | some o =>
    if s.waypoints.isEmpty then ({ s with error := some invalidStateMsg }, none)
    else ({ s with loading := true, error := none }, some o)

/-- `calculateOptimizedRoute` (lines 203-319) end to end: guard, URL build,
fetch (with outcome `out`), `catch` (stores the message in `error`),
`finally` (clears `loading`).  The third component is the URL of the
network request that was issued, `none` when no request was made. -/
def calculateOptimizedRoute (key : String) (s : RouteState) (ms : MapState)
    (out : FetchOutcome) : RouteState × MapState × Option String :=
  match calcStart s with
  | (s1, none) => (s1, ms, none)
  | (s1, some o) =>
    let url := buildUrl key o s.waypoints s.showTraffic s.vehicleType
    match tryFetchBody s1 ms out with
    | .ok (s2, ms2) => ({ s2 with loading := false }, ms2, some url)
    | .error (msg, s3, ms3) =>
      ({ s3 with error := some msg, loading := false }, ms3, some url)

/-- `sub <:+: u` at the character-list level: the URL `u` contains `sub`. -/
abbrev urlContains (u sub : String) : Prop := sub.data <:+: u.data

/-- The number of loop iterations of `arrowLoop` as a function of the
polyline length alone (derived closed form, used to settle the arrow-count
claims). -/
def arrowCountFormula (n : Nat) : Nat :=
  let step := max 5 (n / 26)
  if step < n - step then (n - step - step - 1) / step + 1 else 0

/-- A concrete polyline of `n` distinct samples along the equator. -/
def samplePolyline (n : Nat) : List (Int × Int) :=
  (List.range n).map (fun k => (Int.ofNat k, 0))

/-- Characters that can occur in the `query=` fragment: decimal digits,
the integer sign, the `lat,lon` comma and the `:` separator. -/
abbrev queryChar (c : Char) : Prop :=
  c.isDigit = true ∨ c = '-' ∨ c = ',' ∨ c = ':'

theorem arrowLoop_length (coords : List (Int × Int)) (step : Nat) (hs : 0 < step) :
    ∀ i, (arrowLoop coords step i).length =
      if i < coords.length - step then (coords.length - step - i - 1) / step + 1 else 0 := by
  have key : ∀ (k i : Nat), coords.length - i ≤ k →
      (arrowLoop coords step i).length =
        if i < coords.length - step then (coords.length - step - i - 1) / step + 1 else 0 := by
    intro k
    induction k with
    | zero =>
      intro i hi
      rw [arrowLoop]
      have hneg : ¬ (0 < step ∧ i < coords.length - step) := by omega
      rw [dif_neg hneg]
      have : ¬ i < coords.length - step := by omega
      rw [if_neg this]
      rfl
    | succ k ih =>
      intro i hi
      rw [arrowLoop]
      by_cases hcond : 0 < step ∧ i < coords.length - step
      · rw [dif_pos hcond]
        simp only [List.length_cons]
        rw [ih (i + step) (by omega)]
        by_cases h2 : i + step < coords.length - step
        · rw [if_pos h2, if_pos hcond.2]
          have he : coords.length - step - i - 1 =
              (coords.length - step - (i + step) - 1) + step := by omega
          rw [he, Nat.add_div_right _ hs]
        · rw [if_neg h2, if_pos hcond.2]
          have hlt : coords.length - step - i - 1 < step := by omega
          rw [Nat.div_eq_of_lt hlt]
      · rw [dif_neg hcond]
        have : ¬ i < coords.length - step := by omega
        rw [if_neg this]
        rfl
  intro i
  exact key coords.length i (by omega)

theorem routeArrows_length (coords : List (Int × Int)) :
    (routeArrows coords).length = arrowCountFormula coords.length := by
  have hs : 0 < max 5 (coords.length / 26) := by
    have := Nat.le_max_left 5 (coords.length / 26)
    omega
  have h := arrowLoop_length coords (max 5 (coords.length / 26)) hs
    (max 5 (coords.length / 26))
  simpa [routeArrows, arrowCountFormula] using h

theorem samplePolyline_length (n : Nat) : (samplePolyline n).length = n := by
  simp [samplePolyline]

/-- C5 (amended): for every polyline the number of arrow features is
bounded above by the constant 29 — constant-bounded regardless of how
large the polyline grows, but the true least upper bound is 29, not 25. -/
theorem arrow_count_le_29 (coords : List (Int × Int)) :
    (routeArrows coords).length ≤ 29 := by
  rw [routeArrows_length]
  simp only [arrowCountFormula]
  have h1 : 5 ≤ max 5 (coords.length / 26) := Nat.le_max_left _ _
  have h2 : coords.length / 26 ≤ max 5 (coords.length / 26) := Nat.le_max_right _ _
  have h3 : 26 * (coords.length / 26) + coords.length % 26 = coords.length :=
    Nat.div_add_mod _ _
  have h4 : coords.length % 26 < 26 := Nat.mod_lt _ (by norm_num)
  split
  · next hc =>
    have h5 : (coords.length - max 5 (coords.length / 26) - max 5 (coords.length / 26) - 1)
        / max 5 (coords.length / 26) < 29 := by
      rw [Nat.div_lt_iff_lt_mul (by omega)]
      omega
    omega
  · omega

/-- C6 (amended): the stride floor of 5 guarantees at least one arrow for
every polyline of at least 11 coordinate samples (shorter polylines can
produce none; see the counterexample). -/
theorem arrow_count_pos (coords : List (Int × Int)) (h : 11 ≤ coords.length) :
    0 < (routeArrows coords).length := by
  rw [routeArrows_length]
  simp only [arrowCountFormula]
  have h1 : 5 ≤ max 5 (coords.length / 26) := Nat.le_max_left _ _
  have h2 : coords.length / 26 ≤ max 5 (coords.length / 26) := Nat.le_max_right _ _
  have h3 : 26 * (coords.length / 26) + coords.length % 26 = coords.length :=
    Nat.div_add_mod _ _
  have h4 : coords.length % 26 < 26 := Nat.mod_lt _ (by norm_num)
  have hmax : max 5 (coords.length / 26) = 5 ∨
      max 5 (coords.length / 26) = coords.length / 26 := max_choice _ _
  have hc : max 5 (coords.length / 26) < coords.length - max 5 (coords.length / 26) := by
    omega
  rw [if_pos hc]
  exact Nat.succ_pos _

/-- C5 counterexample: a polyline of 151 coordinate samples produces 29
arrow features — more than the claimed bound of (approximately) 25. -/
theorem arrow_bound_exceeds_25 : 25 < (routeArrows (samplePolyline 151)).length := by
  rw [routeArrows_length, samplePolyline_length]
  decide

/-- C6 counterexample: a short but non-trivial polyline of 10 distinct
samples produces zero arrow features. -/
theorem ten_sample_polyline_no_arrows : (routeArrows (samplePolyline 10)).length = 0 := by
  rw [routeArrows_length, samplePolyline_length]
  decide

/-- C6 witness: an 11-sample polyline already produces an arrow. -/
theorem arrow_count_pos_witness : 0 < (routeArrows (samplePolyline 11)).length :=
  arrow_count_pos (samplePolyline 11) (by rw [samplePolyline_length])


theorem waypointMarkers_length (wps : List Location) :
    ∀ i, (waypointMarkers i wps).length = wps.length := by
  induction wps with
  | nil => intro i; rfl
  | cons l rest ih => intro i; simp [waypointMarkers, ih]

theorem waypointMarkers_getElem? (wps : List Location) :
    ∀ i k, (waypointMarkers i wps)[k]? =
      (wps[k]?).map (fun l =>
        ({ type := .waypoint, label := toString (i + k + 1),
           lon := l.lon, lat := l.lat } : MarkerFeature)) := by
  induction wps with
  | nil => intro i k; simp [waypointMarkers]
  | cons l rest ih =>
    intro i k
    cases k with
    | zero => simp [waypointMarkers]
    | succ k =>
      simp only [waypointMarkers, List.getElem?_cons_succ, ih (i + 1) k]
      have : i + 1 + k + 1 = i + (k + 1) + 1 := by omega
      rw [this]

/-- C4: with the origin present, the marker projection yields one origin
feature labeled "Start" followed by one feature per waypoint labeled with
its 1-based insertion position; in total `n + 1` point features.  The
projection is a function of `origin` and `waypoints` only (the effect's
dependency array), so the labels cannot depend on `optimizedOrder`. -/
theorem marker_projection_labels (o : Location) (wps : List Location) :
    (markerFeatures (some o) wps).length = wps.length + 1 ∧
    (markerFeatures (some o) wps).head? =
      some { type := .origin, label := "Start", lon := o.lon, lat := o.lat } ∧
    ∀ k : Nat, (markerFeatures (some o) wps)[k + 1]? =
      (wps[k]?).map (fun l =>
        ({ type := .waypoint, label := toString (k + 1),
           lon := l.lon, lat := l.lat } : MarkerFeature)) := by
  refine ⟨?_, rfl, ?_⟩
  · show ((_ :: waypointMarkers 0 wps) : List MarkerFeature).length = wps.length + 1
    simp [waypointMarkers_length]
  · intro k
    show ((_ :: waypointMarkers 0 wps) : List MarkerFeature)[k + 1]? = _
    rw [List.getElem?_cons_succ, waypointMarkers_getElem?]
    simp


/-- C1: the computation fails locally (with the `InvalidStateError` message)
exactly when the origin is absent or the waypoint list is empty; in that
case no request is issued and every field other than `error` — origin,
waypoints, travel options, result, loading — is unchanged.  Otherwise the
computation proceeds: the prelude sets `loading` and clears `error`, and a
request is issued. -/
theorem beginComputation_guard (key : String) (s : RouteState) (ms : MapState)
    (out : FetchOutcome) :
    ((s.origin = none ∨ s.waypoints = []) ↔
      (calculateOptimizedRoute key s ms out).2.2 = none) ∧
    ((s.origin = none ∨ s.waypoints = []) →
      calculateOptimizedRoute key s ms out =
        ({ s with error := some invalidStateMsg }, ms, none)) ∧
    (s.origin ≠ none → s.waypoints ≠ [] →
      (calcStart s).1 = { s with loading := true, error := none } ∧
      (calculateOptimizedRoute key s ms out).2.2 ≠ none) := by
  by_cases horigin : s.origin = none
  · have h1 : calculateOptimizedRoute key s ms out =
        ({ s with error := some invalidStateMsg }, ms, none) := by
      simp [calculateOptimizedRoute, calcStart, horigin]
    exact ⟨⟨fun _ => by rw [h1], fun _ => Or.inl horigin⟩, fun _ => h1,
      fun hc => absurd horigin hc⟩
  · obtain ⟨o, ho⟩ : ∃ o, s.origin = some o := by
      cases hx : s.origin with
      | none => exact absurd hx horigin
      | some o => exact ⟨o, rfl⟩
    by_cases hwps : s.waypoints = []
    · have h1 : calculateOptimizedRoute key s ms out =
          ({ s with error := some invalidStateMsg }, ms, none) := by
        simp [calculateOptimizedRoute, calcStart, ho, hwps]
      exact ⟨⟨fun _ => by rw [h1], fun _ => Or.inr hwps⟩, fun _ => h1,
        fun _ hw => absurd hwps hw⟩
    · obtain ⟨w, ws, hwe⟩ := List.exists_cons_of_ne_nil hwps
      have hstart : calcStart s = ({ s with loading := true, error := none }, some o) := by
        simp [calcStart, ho, hwe]
      have hsome : (calculateOptimizedRoute key s ms out).2.2 =
          some (buildUrl key o s.waypoints s.showTraffic s.vehicleType) := by
        simp only [calculateOptimizedRoute, hstart]
        cases htb : tryFetchBody { s with loading := true, error := none } ms out with
        | ok v => obtain ⟨s2, ms2⟩ := v; simp
        | error e => obtain ⟨msg, s3, ms3⟩ := e; simp
      refine ⟨⟨fun hor => ?_, fun hnone => ?_⟩, fun hor => ?_,
        fun _ _ => ⟨by rw [hstart], by rw [hsome]; simp⟩⟩
      · rcases hor with h | h
        · exact absurd h (by simp [ho])
        · exact absurd h hwps
      · rw [hsome] at hnone
        cases hnone
      · rcases hor with h | h
        · exact absurd h (by simp [ho])
        · exact absurd h hwps

/-- C1 witness: at the initial state (no origin, no waypoints) the guard
fires: the error message is stored, nothing else changes, and no request
URL is produced. -/
theorem beginComputation_guard_witness :
    calculateOptimizedRoute "key" initialState initialMapState (.fetchError "boom") =
      ({ initialState with error := some invalidStateMsg }, initialMapState, none) :=
  (beginComputation_guard "key" initialState initialMapState (.fetchError "boom")).2.1
    (Or.inl rfl)


theorem tryFetchBody_error_frame (s : RouteState) (ms : MapState) (out : FetchOutcome)
    (msg : String) (s2 : RouteState) (ms2 : MapState)
    (h : tryFetchBody s ms out = .error (msg, s2, ms2)) : s2 = s ∧ ms2 = ms := by
  cases out with
  | fetchError m =>
    simp [tryFetchBody] at h
    exact ⟨h.2.1.symm, h.2.2.symm⟩
  | httpError st eb =>
    simp [tryFetchBody] at h
    exact ⟨h.2.1.symm, h.2.2.symm⟩
  | success data =>
    cases herr : data.error with
    | some e =>
      simp [tryFetchBody, herr] at h
      exact ⟨h.2.1.symm, h.2.2.symm⟩
    | none =>
      cases hr : data.routes with
      | none =>
        simp [tryFetchBody, herr, hr] at h
        exact ⟨h.2.1.symm, h.2.2.symm⟩
      | some routes =>
        cases routes with
        | nil =>
          simp [tryFetchBody, herr, hr] at h
          exact ⟨h.2.1.symm, h.2.2.symm⟩
        | cons route rest =>
          simp [tryFetchBody, herr, hr] at h

theorem tryFetchBody_ok_error_field (s : RouteState) (ms : MapState) (out : FetchOutcome)
    (s2 : RouteState) (ms2 : MapState)
    (h : tryFetchBody s ms out = .ok (s2, ms2)) : s2.error = s.error := by
  cases out with
  | fetchError m => simp [tryFetchBody] at h
  | httpError st eb => simp [tryFetchBody] at h
  | success data =>
    cases herr : data.error with
    | some e => simp [tryFetchBody, herr] at h
    | none =>
      cases hr : data.routes with
      | none => simp [tryFetchBody, herr, hr] at h
      | some routes =>
        cases routes with
        | nil => simp [tryFetchBody, herr, hr] at h
        | cons route rest =>
          simp [tryFetchBody, herr, hr] at h
          rw [← h.1]

/-- C2: a success response with zero candidate routes makes the interpreter
throw the `NoRouteFoundError` message, and the stored `result` after the
computation is exactly what it was before (unchanged, not cleared). -/
theorem noRouteFound_preserves_result (key : String) (s : RouteState) (ms : MapState)
    (data : ApiResponse) (horigin : s.origin ≠ none) (hwps : s.waypoints ≠ [])
    (herr : data.error = none) (hroutes : data.routes = none ∨ data.routes = some []) :
    (calculateOptimizedRoute key s ms (.success data)).1.error = some noRouteMsg ∧
    (calculateOptimizedRoute key s ms (.success data)).1.result = s.result ∧
    tryFetchBody { s with loading := true, error := none } ms (.success data) =
      .error (noRouteMsg, { s with loading := true, error := none }, ms) := by
  obtain ⟨o, ho⟩ : ∃ o, s.origin = some o := by
    cases hx : s.origin with
    | none => exact absurd hx horigin
    | some o => exact ⟨o, rfl⟩
  obtain ⟨w, ws, hwe⟩ := List.exists_cons_of_ne_nil hwps
  have hstart : calcStart s = ({ s with loading := true, error := none }, some o) := by
    simp [calcStart, ho, hwe]
  have htb : tryFetchBody { s with loading := true, error := none } ms (.success data) =
      .error (noRouteMsg, { s with loading := true, error := none }, ms) := by
    rcases hroutes with h | h <;> simp [tryFetchBody, herr, h]
  refine ⟨?_, ?_, htb⟩ <;> simp [calculateOptimizedRoute, hstart, htb]

/-- C2 witness: a concrete state holding a previous result, fed a response
with an empty route list: the error is stored and the old result survives. -/
theorem noRouteFound_preserves_result_witness :
    (calculateOptimizedRoute "key"
        { initialState with
            origin := some ⟨47, -122⟩, waypoints := [⟨48, -121⟩],
            result := some ⟨12, 34, none, []⟩ }
        initialMapState
        (.success { error := none, routes := some [], optimizedWaypoints := none })).1.error
      = some noRouteMsg ∧
    (calculateOptimizedRoute "key"
        { initialState with
            origin := some ⟨47, -122⟩, waypoints := [⟨48, -121⟩],
            result := some ⟨12, 34, none, []⟩ }
        initialMapState
        (.success { error := none, routes := some [], optimizedWaypoints := none })).1.result
      = some ⟨12, 34, none, []⟩ := by
  have h := noRouteFound_preserves_result "key"
    { initialState with
        origin := some ⟨47, -122⟩, waypoints := [⟨48, -121⟩],
        result := some ⟨12, 34, none, []⟩ }
    initialMapState
    { error := none, routes := some [], optimizedWaypoints := none }
    (by simp) (by simp) rfl (Or.inr rfl)
  exact ⟨h.1, h.2.1⟩

/-- C3: once a computation has started (origin present, waypoints
non-empty), it always terminates with `loading = false`, and whenever the
try body throws a message, that exact message is stored in `error`.  The
embedding's `calculateOptimizedRoute` is a total function: no exception
escapes the computation boundary. -/
theorem computation_error_policy (key : String) (s : RouteState) (ms : MapState)
    (out : FetchOutcome) (horigin : s.origin ≠ none) (hwps : s.waypoints ≠ []) :
    (calculateOptimizedRoute key s ms out).1.loading = false ∧
    (∀ msg s2 ms2,
      tryFetchBody { s with loading := true, error := none } ms out = .error (msg, s2, ms2) →
      (calculateOptimizedRoute key s ms out).1.error = some msg) := by
  obtain ⟨o, ho⟩ : ∃ o, s.origin = some o := by
    cases hx : s.origin with
    | none => exact absurd hx horigin
    | some o => exact ⟨o, rfl⟩
  obtain ⟨w, ws, hwe⟩ := List.exists_cons_of_ne_nil hwps
  have hstart : calcStart s = ({ s with loading := true, error := none }, some o) := by
    simp [calcStart, ho, hwe]
  cases htb : tryFetchBody { s with loading := true, error := none } ms out with
  | ok v =>
    obtain ⟨s2, ms2⟩ := v
    refine ⟨by simp [calculateOptimizedRoute, hstart, htb], ?_⟩
    intro msg s3 ms3 hcontra
    cases hcontra
  | error e =>
    obtain ⟨msg, s3, ms3⟩ := e
    refine ⟨by simp [calculateOptimizedRoute, hstart, htb], ?_⟩
    intro msg2 s4 ms4 he
    injection he with he2
    injection he2 with hm hrest
    subst hm
    simp [calculateOptimizedRoute, hstart, htb]

/-- C3 witness: a transport failure ("boom") on a valid state ends with
`loading = false` and `error = "boom"`. -/
theorem computation_error_policy_witness :
    (calculateOptimizedRoute "key"
        { initialState with
            origin := some ⟨47, -122⟩, waypoints := [⟨48, -121⟩] }
        initialMapState (.fetchError "boom")).1.loading = false ∧
    (calculateOptimizedRoute "key"
        { initialState with
            origin := some ⟨47, -122⟩, waypoints := [⟨48, -121⟩] }
        initialMapState (.fetchError "boom")).1.error = some "boom" := by
  have h := computation_error_policy "key"
    { initialState with
        origin := some ⟨47, -122⟩, waypoints := [⟨48, -121⟩] }
    initialMapState (.fetchError "boom") (by simp) (by simp)
  exact ⟨h.1, h.2 "boom"
    { initialState with
        origin := some ⟨47, -122⟩, waypoints := [⟨48, -121⟩],
        loading := true, error := none }
    initialMapState rfl⟩


/-- C8: `clearAll` always yields origin absent, waypoints empty, result
absent, error absent (and empties both overlay sources), while `loading`
(the pending flag) — and the travel options — are untouched: the record
update keeps every other field of the prior state. -/
theorem clearAll_resets (s : RouteState) (ms : MapState) :
    clearAll s ms =
      ({ s with origin := none, waypoints := [], result := none, error := none },
       { markerSource := [], routeSource := [] }) ∧
    (clearAll s ms).1.loading = s.loading ∧
    (clearAll s ms).1.showTraffic = s.showTraffic ∧
    (clearAll s ms).1.vehicleType = s.vehicleType :=
  ⟨rfl, rfl, rfl, rfl⟩

/-- C9: when the map is unavailable (`none`) or the camera has no center,
`addOrigin` and `addWaypoint` return the state unchanged — total no-ops
(and, being total functions, they throw nothing). -/
theorem add_ops_noop_without_center (m : Option Camera) (s : RouteState)
    (h : m = none ∨ ∃ cam, m = some cam ∧ cam.center = none) :
    addOrigin m s = s ∧ addWaypoint m s = s := by
  rcases h with h | ⟨cam, hm, hc⟩
  · subst h
    exact ⟨rfl, rfl⟩
  · subst hm
    simp [addOrigin, addWaypoint, hc]

/-- C9 witness: with no map at all, both operations fix the initial state. -/
theorem add_ops_noop_witness :
    addOrigin none initialState = initialState ∧
    addWaypoint none initialState = initialState :=
  add_ops_noop_without_center none initialState (Or.inl rfl)

/-- C10: the route-geometry source is rewritten only by a successful
computation or by `clearAll`: a computation that ends in error leaves
`routeSource` exactly as it was; `clearAll` empties it; the marker
projection never touches it. -/
theorem route_overlay_frame (key : String) (s : RouteState) (ms : MapState)
    (out : FetchOutcome) :
    ((calculateOptimizedRoute key s ms out).1.error ≠ none →
      (calculateOptimizedRoute key s ms out).2.1.routeSource = ms.routeSource) ∧
    (clearAll s ms).2.routeSource = [] ∧
    (syncMarkers s ms).routeSource = ms.routeSource := by
  refine ⟨?_, rfl, rfl⟩
  by_cases horigin : s.origin = none
  · intro _
    simp [calculateOptimizedRoute, calcStart, horigin]
  · obtain ⟨o, ho⟩ : ∃ o, s.origin = some o := by
      cases hx : s.origin with
      | none => exact absurd hx horigin
      | some o => exact ⟨o, rfl⟩
    by_cases hwps : s.waypoints = []
    · intro _
      simp [calculateOptimizedRoute, calcStart, ho, hwps]
    · obtain ⟨w, ws, hwe⟩ := List.exists_cons_of_ne_nil hwps
      have hstart : calcStart s = ({ s with loading := true, error := none }, some o) := by
        simp [calcStart, ho, hwe]
      cases htb : tryFetchBody { s with loading := true, error := none } ms out with
      | ok v =>
        obtain ⟨s2, ms2⟩ := v
        intro herr
        exfalso
        apply herr
        have hfield := tryFetchBody_ok_error_field _ _ _ _ _ htb
        simp [calculateOptimizedRoute, hstart, htb, hfield]
      | error e =>
        obtain ⟨msg, s3, ms3⟩ := e
        intro _
        have hframe := tryFetchBody_error_frame _ _ _ _ _ _ htb
        simp [calculateOptimizedRoute, hstart, htb, hframe.2]

/-- C10 witness: an invalid computation (guard failure counts as a failed
computation: `error` ends non-absent) leaves a previously drawn route line
on the map untouched. -/
theorem route_overlay_frame_witness :
    (calculateOptimizedRoute "key" initialState
        { markerSource := [], routeSource := [.line [(1, 2)]] }
        (.fetchError "x")).2.1.routeSource = [.line [(1, 2)]] :=
  (route_overlay_frame "key" initialState
    { markerSource := [], routeSource := [.line [(1, 2)]] } (.fetchError "x")).1
    (by simp [calculateOptimizedRoute, calcStart, initialState])


theorem sub_of_right {α : Type} (l : List α) {m r : List α} (h : m <:+: r) :
    m <:+: l ++ r := by
  obtain ⟨a, b, hab⟩ := h
  exact ⟨l ++ a, b, by rw [← hab]; simp⟩

theorem mem_of_sub {α : Type} {m big : List α} (h : m <:+: big) {c : α} (hc : c ∈ m) :
    c ∈ big := by
  obtain ⟨a, b, hab⟩ := h
  rw [← hab]
  simp [hc]

theorem digitChar_isDigit (n : Nat) (h : n < 10) : (Nat.digitChar n).isDigit = true := by
  interval_cases n <;> decide

theorem toDigitsCore_digits : ∀ (fuel n : Nat) (acc : List Char),
    (∀ c ∈ acc, c.isDigit = true) → ∀ c ∈ Nat.toDigitsCore 10 fuel n acc, c.isDigit = true := by
  intro fuel
  induction fuel with
  | zero =>
    intro n acc hacc c hc
    rw [Nat.toDigitsCore] at hc
    exact hacc c hc
  | succ f ih =>
    intro n acc hacc c hc
    rw [Nat.toDigitsCore] at hc
    by_cases h0 : n / 10 = 0
    · rw [if_pos h0] at hc
      rcases List.mem_cons.mp hc with h | h
      · subst h
        exact digitChar_isDigit _ (Nat.mod_lt _ (by norm_num))
      · exact hacc c h
    · rw [if_neg h0] at hc
      refine ih (n / 10) (Nat.digitChar (n % 10) :: acc) ?_ c hc
      intro c2 hc2
      rcases List.mem_cons.mp hc2 with h | h
      · subst h
        exact digitChar_isDigit _ (Nat.mod_lt _ (by norm_num))
      · exact hacc c2 h

theorem natRepr_digits (n : Nat) : ∀ c ∈ (Nat.repr n).data, c.isDigit = true := by
  intro c hc
  have hd : (Nat.repr n).data = Nat.toDigitsCore 10 (n + 1) n [] := rfl
  rw [hd] at hc
  exact toDigitsCore_digits (n + 1) n [] (by intro c2 hc2; simp at hc2) c hc

theorem intToString_chars (i : Int) : ∀ c ∈ (toString i).data, c.isDigit = true ∨ c = '-' := by
  cases i with
  | ofNat m =>
    intro c hc
    have hd : (toString (Int.ofNat m)).data = (Nat.repr m).data := rfl
    rw [hd] at hc
    exact Or.inl (natRepr_digits m c hc)
  | negSucc m =>
    intro c hc
    have hd : (toString (Int.negSucc m)).data = '-' :: (Nat.repr (m + 1)).data := rfl
    rw [hd] at hc
    rcases List.mem_cons.mp hc with h | h
    · exact Or.inr h
    · exact Or.inl (natRepr_digits (m + 1) c h)

theorem renderLoc_chars (loc : Location) : ∀ c ∈ (renderLoc loc).data, queryChar c := by
  intro c hc
  simp only [renderLoc, String.data_append, List.mem_append] at hc
  rcases hc with (hc | hc) | hc
  · rcases intToString_chars _ c hc with h | h
    · exact Or.inl h
    · exact Or.inr (Or.inl h)
  · have : c = ',' := by simpa using hc
    exact Or.inr (Or.inr (Or.inl this))
  · rcases intToString_chars _ c hc with h | h
    · exact Or.inl h
    · exact Or.inr (Or.inl h)

theorem joinColon_chars : ∀ (ss : List String),
    (∀ s ∈ ss, ∀ c ∈ s.data, queryChar c) → ∀ c ∈ (joinColon ss).data, queryChar c := by
  intro ss
  induction ss with
  | nil =>
    intro _ c hc
    simp [joinColon] at hc
  | cons s rest ih =>
    intro hall c hc
    cases rest with
    | nil => exact hall s (by simp) c (by simpa [joinColon] using hc)
    | cons t ts =>
      rw [show joinColon (s :: t :: ts) = s ++ ":" ++ joinColon (t :: ts) from rfl] at hc
      simp only [String.data_append, List.mem_append] at hc
      rcases hc with (hc | hc) | hc
      · exact hall s (by simp) c hc
      · have : c = ':' := by simpa using hc
        exact Or.inr (Or.inr (Or.inr this))
      · exact ih (fun s2 hs2 => hall s2 (by simp [hs2])) c hc

theorem query_chars (o : Location) (wps : List Location) :
    ∀ c ∈ (joinColon ((o :: wps).map renderLoc)).data, queryChar c := by
  refine joinColon_chars _ ?_
  intro s hs
  simp only [List.mem_map] at hs
  obtain ⟨loc, _, rfl⟩ := hs
  exact renderLoc_chars loc


theorem buildUrl_truck_data (key : String) (o : Location) (wps : List Location) (tr : Bool) :
    (buildUrl key o wps tr .truck).data =
      ("https://atlas.microsoft.com/route/directions/json?api-version=1.0&subscription-key=").data
        ++ (key.data
        ++ (("&query=").data
        ++ ((joinColon ((o :: wps).map renderLoc)).data
        ++ (("&computeBestOrder=true").data
        ++ ((if tr then ("&traffic=true" : String) else "").data
        ++ (("&travelMode=").data
        ++ (("truck").data
        ++ truckParams.data))))))) := by
  simp [buildUrl, vehicleTypeParam, vehicleParams, List.append_assoc]

theorem buildUrl_car_data (key : String) (o : Location) (wps : List Location) (tr : Bool) :
    (buildUrl key o wps tr .car).data =
      ("https://atlas.microsoft.com/route/directions/json?api-version=1.0&subscription-key=").data
        ++ (key.data
        ++ (("&query=").data
        ++ ((joinColon ((o :: wps).map renderLoc)).data
        ++ (("&computeBestOrder=true").data
        ++ ((if tr then ("&traffic=true" : String) else "").data
        ++ (("&travelMode=").data
        ++ ("car").data)))))) := by
  simp [buildUrl, vehicleTypeParam, vehicleParams, List.append_assoc]

theorem buildUrl_car_chars (key : String) (o : Location) (wps : List Location) (tr : Bool) :
    ∀ c ∈ (buildUrl key o wps tr .car).data,
      c ∈ key.data ∨ queryChar c ∨
      c ∈ ("https://atlas.microsoft.com/route/directions/json?api-version=1.0&subscription-key="
            ++ "&query=" ++ "&computeBestOrder=true" ++ "&traffic=true"
            ++ "&travelMode=" ++ "car").data := by
  intro c hc
  rw [buildUrl_car_data] at hc
  simp only [List.mem_append] at hc
  simp only [String.data_append, List.mem_append]
  rcases hc with h | h | h | h | h | h | h | h
  · exact Or.inr (Or.inr (Or.inl (Or.inl (Or.inl (Or.inl (Or.inl h))))))
  · exact Or.inl h
  · exact Or.inr (Or.inr (Or.inl (Or.inl (Or.inl (Or.inl (Or.inr h))))))
  · exact Or.inr (Or.inl (query_chars o wps c h))
  · exact Or.inr (Or.inr (Or.inl (Or.inl (Or.inl (Or.inr h)))))
  · cases tr with
    | false => simp at h
    | true => exact Or.inr (Or.inr (Or.inl (Or.inl (Or.inr h))))
  · exact Or.inr (Or.inr (Or.inl (Or.inr h)))
  · exact Or.inr (Or.inr (Or.inr h))


set_option maxRecDepth 10000 in
/-- C7: for every key (not containing the capital letters of the dimension
parameter names), origin, waypoint list and traffic flag, the truck URL
contains `travelMode=truck` and all four fixed vehicle dimension
parameters, while the car URL contains `travelMode=car` and none of the
four dimension parameters. -/
theorem vehicle_params_in_url (key : String) (o : Location) (wps : List Location)
    (tr : Bool) (hW : 'W' ∉ key.data) (hH : 'H' ∉ key.data) (hL : 'L' ∉ key.data) :
    (urlContains (buildUrl key o wps tr .truck) "travelMode=truck" ∧
     urlContains (buildUrl key o wps tr .truck) "vehicleWidth=2.5" ∧
     urlContains (buildUrl key o wps tr .truck) "vehicleHeight=4" ∧
     urlContains (buildUrl key o wps tr .truck) "vehicleLength=12" ∧
     urlContains (buildUrl key o wps tr .truck) "vehicleWeight=10000") ∧
    (urlContains (buildUrl key o wps tr .car) "travelMode=car" ∧
     ¬ urlContains (buildUrl key o wps tr .car) "vehicleWidth=2.5" ∧
     ¬ urlContains (buildUrl key o wps tr .car) "vehicleHeight=4" ∧
     ¬ urlContains (buildUrl key o wps tr .car) "vehicleLength=12" ∧
     ¬ urlContains (buildUrl key o wps tr .car) "vehicleWeight=10000") := by
  have htail : ∀ sub : String,
      sub.data <:+: (("&travelMode=").data ++ (("truck").data ++ truckParams.data)) →
      urlContains (buildUrl key o wps tr .truck) sub := by
    intro sub hsub
    show sub.data <:+: _
    rw [buildUrl_truck_data]
    exact sub_of_right _ (sub_of_right _ (sub_of_right _ (sub_of_right _
      (sub_of_right _ (sub_of_right _ hsub)))))
  have hcartail : ∀ sub : String,
      sub.data <:+: (("&travelMode=").data ++ ("car").data) →
      urlContains (buildUrl key o wps tr .car) sub := by
    intro sub hsub
    show sub.data <:+: _
    rw [buildUrl_car_data]
    exact sub_of_right _ (sub_of_right _ (sub_of_right _ (sub_of_right _
      (sub_of_right _ (sub_of_right _ hsub)))))
  have habsent : ∀ (sub : String) (cap : Char), cap ∈ sub.data →
      cap ∉ key.data → ¬ queryChar cap →
      cap ∉ ("https://atlas.microsoft.com/route/directions/json?api-version=1.0&subscription-key="
            ++ "&query=" ++ "&computeBestOrder=true" ++ "&traffic=true"
            ++ "&travelMode=" ++ "car").data →
      ¬ urlContains (buildUrl key o wps tr .car) sub := by
    intro sub cap hmem hkey hq hpool hurl
    have hin : cap ∈ (buildUrl key o wps tr .car).data := mem_of_sub hurl hmem
    rcases buildUrl_car_chars key o wps tr cap hin with h | h | h
    · exact hkey h
    · exact hq h
    · exact hpool h
  refine ⟨⟨htail _ (by decide), htail _ (by decide), htail _ (by decide),
      htail _ (by decide), htail _ (by decide)⟩,
    hcartail _ (by decide),
    habsent _ 'W' (by decide) hW (by decide) (by decide),
    habsent _ 'H' (by decide) hH (by decide) (by decide),
    habsent _ 'L' (by decide) hL (by decide) (by decide),
    habsent _ 'W' (by decide) hW (by decide) (by decide)⟩

/-- C7 witness: a concrete key, origin and waypoint: the truck URL carries
the width parameter, the car URL does not. -/
theorem vehicle_params_in_url_witness :
    urlContains (buildUrl "demoKey123" ⟨47, -122⟩ [⟨48, -121⟩] true .truck)
      "vehicleWidth=2.5" ∧
    ¬ urlContains (buildUrl "demoKey123" ⟨47, -122⟩ [⟨48, -121⟩] true .car)
      "vehicleWidth=2.5" := by
  have h := vehicle_params_in_url "demoKey123" ⟨47, -122⟩ [⟨48, -121⟩] true
    (by decide) (by decide) (by decide)
  exact ⟨h.1.2.1, h.2.2.1⟩

end RouteDemo
